import Mathlib

/-!
Verification development for the DView security-camera backend.

The embedding translates the per-camera pipeline of src/backend/camera.py
(class SecurityCamera), the capture-and-record loop and HTTP control
endpoint of src/backend/app.py, and the shared vision primitives they call.
OpenCV primitives (cvtColor, GaussianBlur, absdiff, threshold, dilate,
findContours + contourArea, imencode) are library code, not code of this
repository; they are abstracted as a bundle of operations over abstract
frame, grayscale, mask and byte-buffer types, while every control decision,
constant and state update of the repository itself is embedded concretely.
Threads that the source spawns are modelled as atomically processed events:
the synchronous prefix of a spawned clip recorder is one step, and its
eventual completion (the finally block) is a separate event.
-/

/-- Bundle of the OpenCV primitives used by the repository, over abstract
types F (raw BGR frame), G (grayscale image), M (binary mask) and B (encoded
byte buffer). Numeric arguments that the source passes explicitly (blur
kernel size, threshold cutoff and max value, dilation iteration count) stay
explicit here; the structuring element of a dilation is part of the abstract
operation itself. -/
structure VisionOps (F G M B : Type) where
  to_gray : F → G
  gaussian_blur : Nat → Nat → G → G
  absdiff : G → G → G
  threshold_bin : Nat → Nat → G → M
  dilate : Nat → M → M
  contour_areas : M → List Nat
  imencode : F → Option B
  create_dummy_frame : F

/-- State of one SecurityCamera instance (src/backend/camera.py, class
fields set in init and init_camera): cap is some index when a device
opened and none when no camera is available; last_frame is the motion
reference; events and files model the persisted event log and the
recordings directory; open_writers counts currently open VideoWriter
handles (implicit in the source, tracked here to state the at-most-one
invariant). -/
structure CamState (G : Type) where
  cap : Option Nat
  is_recording : Bool
  motion_detected : Bool
  last_frame : Option G
  motion_threshold : Nat
  events : List String
  files : List String
  open_writers : Nat
deriving Repr

/-- Initial SecurityCamera state after init: not recording, no motion, no
reference frame, motion threshold 30, empty log and recordings. -/
def init_state (G : Type) (cap : Option Nat) : CamState G :=
  { cap := cap
    is_recording := false
    motion_detected := false
    last_frame := none
    motion_threshold := 30
    events := []
    files := []
    open_writers := 0 }

/-- SecurityCamera.detect_motion (camera.py lines 50-79). If no reference
exists the grayscale of the current frame is stored (no blur on this path)
and no motion is reported; otherwise the blurred grayscale is diffed
against the reference, thresholded at 25, dilated (5x5 kernel, 2
iterations), and motion holds iff some contour area exceeds the
threshold; the reference is then replaced by the blurred grayscale. -/
def detect_motion {F G M B : Type} (ops : VisionOps F G M B)
    (st : CamState G) (frame : F) : CamState G × Bool :=
  match st.last_frame with
  | none => ({ st with last_frame := some (ops.to_gray frame) }, false)
  | some last_frame =>
    let gray := ops.gaussian_blur 21 21 (ops.to_gray frame)
    let frame_delta := ops.absdiff last_frame gray
    let thresh := ops.dilate 2 (ops.threshold_bin 25 255 frame_delta)
    let motion :=
      (ops.contour_areas thresh).any (fun a => decide (st.motion_threshold < a))
    ({ st with last_frame := some gray }, motion)

/-- Synchronous prefix of SecurityCamera.record_clip (camera.py lines
146-165): a re-entrant call while a session is open returns unchanged; with
no device it only appends a trigger-specific no-camera event; otherwise it
marks recording, opens one writer and creates the clip file named from
trigger kind and timestamp. The timed write loop and the finally block run
in the spawned thread and are modelled separately. -/
def record_clip {G : Type} (trigger_type ts : String) (st : CamState G) :
    CamState G :=
  if st.is_recording then st
  else
    match st.cap with
    | none => { st with events := st.events ++ [trigger_type ++ "_no_camera"] }
    | some _ =>
      { st with
          is_recording := true
          open_writers := st.open_writers + 1
          files := st.files ++ [trigger_type ++ "_" ++ ts ++ ".mp4"] }

/-- SecurityCamera.manual_record (camera.py lines 133-140): while recording
it answers Already recording and touches nothing; otherwise it logs a
manual_record event and starts a manual clip. -/
def manual_record {G : Type} (ts : String) (st : CamState G) :
    CamState G × String :=
  if st.is_recording then (st, "Already recording")
  else
    (record_clip "manual" ts { st with events := st.events ++ ["manual_record"] },
     "Recording started")

/-- Completion of a spawned clip recorder: the finally block of
record_clip (camera.py lines 177-179) releases the writer and clears the
recording flag. -/
def clip_done {G : Type} (st : CamState G) : CamState G :=
  { st with open_writers := st.open_writers - 1, is_recording := false }

/-- Events driving the recording controller of one camera: a manual
trigger, a motion rising edge observed by generate_frames, or the
completion of a spawned clip recorder. -/
inductive CtrlEvent where
  | manual (ts : String)
  | motion_edge (ts : String)
  | clip_done
deriving Repr

/-- One controller step. A motion rising edge (camera.py lines 117-121)
sets the motion flag, logs motion_detected and starts a motion clip. -/
def ctrl_step {G : Type} (st : CamState G) (e : CtrlEvent) : CamState G :=
  match e with
  | .manual ts => (manual_record ts st).1
  | .motion_edge ts =>
    record_clip "motion" ts
      { st with motion_detected := true, events := st.events ++ ["motion_detected"] }
  | .clip_done => clip_done st

/-- Controller run from the initial state over a sequence of events. -/
def run_controller (G : Type) (cap : Option Nat) (evs : List CtrlEvent) :
    CamState G :=
  evs.foldl ctrl_step (init_state G cap)

/-- One persisted event record of SecurityCamera.log_event. -/
structure EventRec where
  timestamp : String
  type : String
deriving DecidableEq, Repr

/-- SecurityCamera.log_event (camera.py lines 181-199): the stored sequence
is loaded (an absent or unparsable store reads as the empty list), the new
event is appended, and the whole sequence is written back. -/
def log_event (stored : Option (List EventRec)) (e : EventRec) :
    List EventRec :=
  let events := match stored with | some evs => evs | none => []
  events ++ [e]

/-- Outcome of one iteration of SecurityCamera.generate_frames: a yielded
multipart MJPEG part, a skipped tick (encode failure), or loop exit. -/
inductive GenOut (B : Type) where
  | part (buf : B)
  | skip
  | stop
deriving Repr

/-- One iteration of SecurityCamera.generate_frames (camera.py lines
101-131). With no device the fixed dummy frame is encoded and yielded and
nothing else changes; with a device the loop exits when the device is
closed or the read fails, otherwise it runs the motion detector, handles
the rising and falling edges, and encodes the frame (an encode failure
skips the yield). -/
def generate_frames_tick {F G M B : Type} (ops : VisionOps F G M B)
    (st : CamState G) (opened : Bool) (read : Option F) (ts : String) :
    GenOut B × CamState G :=
  match st.cap with
  | none =>
    match ops.imencode ops.create_dummy_frame with
    | none => (.skip, st)
    | some buf => (.part buf, st)
  | some _ =>
    if !opened then (.stop, st)
    else
      match read with
      | none => (.stop, st)
      | some frame =>
        let res := detect_motion ops st frame
        let st1 := res.1
        let motion := res.2
        let st2 :=
          if motion && !st1.motion_detected then
            record_clip "motion" ts
              { st1 with
                  motion_detected := true
                  events := st1.events ++ ["motion_detected"] }
          else if !motion then { st1 with motion_detected := false }
          else st1
        match ops.imencode frame with
        | none => (.skip, st2)
        | some buf => (.part buf, st2)

/-- Iterated generate_frames loop: the outcome and state after tick n,
driven by per-tick inputs (device-open flag, read result, timestamp). -/
def generate_frames_run {F G M B : Type} (ops : VisionOps F G M B)
    (st0 : CamState G) (inputs : Nat → Bool × Option F × String) :
    Nat → GenOut B × CamState G
  | 0 => generate_frames_tick ops st0 (inputs 0).1 (inputs 0).2.1 (inputs 0).2.2
  | n + 1 =>
    generate_frames_tick ops (generate_frames_run ops st0 inputs n).2
      (inputs (n + 1)).1 (inputs (n + 1)).2.1 (inputs (n + 1)).2.2

/-- Write loop of record_clip (camera.py lines 167-176): one iteration per
33 ms sleep, the condition compares elapsed time (milliseconds) against the
10 second duration. The function returns the first tick at which the
condition fails, counting from tick t. -/
def record_clip_loop (t : Nat) : Nat :=
  if h : 33 * t < 10000 then record_clip_loop (t + 1) else t
termination_by 10000 - 33 * t
decreasing_by omega

/-- Tick at which a clip started by record_clip stops. The source loop
condition reads only elapsed time: the trigger kind appears only in the
file name, and the motion signal is never consulted, so both parameters are
ignored exactly as the source ignores them. -/
def record_clip_stop_tick (trigger_type : String) (motion : Nat → Bool) : Nat :=
  let _ := trigger_type
  let _ := motion
  record_clip_loop 0

/-- Shared control state of src/backend/app.py: the recording and
motion_detected dictionaries keyed by cam1 and cam2. -/
structure AppCtl where
  rec_cam1 : Bool
  rec_cam2 : Bool
  mot_cam1 : Bool
  mot_cam2 : Bool
deriving DecidableEq, Repr

/-- The record endpoint of src/backend/app.py (lines 148-155): an unknown
camera key is rejected with an invalid-key error and nothing changes;
a known key has its recording flag set and a confirmation returned. -/
def manual_record_endpoint (cam : String) (st : AppCtl) :
    AppCtl × Except String String :=
  if cam = "cam1" ∨ cam = "cam2" then
    (if cam = "cam1" then { st with rec_cam1 := true }
     else { st with rec_cam2 := true },
     Except.ok ("Manual recording started for " ++ cam))
  else (st, Except.error "Invalid camera key")

/-- Per-loop state of detect_motion_and_record in src/backend/app.py:
the previous comparison frame, the writer variable out (none before any
session starts, as in the source where out is initialised to None), and
the shared recording and motion_detected flags for this camera key. -/
structure DmrState (G : Type) where
  prev_frame : Option G
  out : Option String
  recording : Bool
  motion_flag : Bool
deriving Repr

/-- Outcome of one iteration of detect_motion_and_record: a normal step
(released records whether the writer was released this tick), an attempted
frame write through a missing writer (out is None, an AttributeError in the
source), or loop exit on read failure. -/
inductive DmrTickResult (G : Type) where
  | ok (st : DmrState G) (released : Bool)
  | crash_missing_writer
  | halted
deriving Repr

/-- One iteration of detect_motion_and_record (app.py lines 89-120): read,
blur the grayscale, seed the previous frame on the first pass (continue),
otherwise diff, threshold at 25, dilate twice, set the motion flag from
contour areas above 5000, start a session on a motion edge, write the
current frame through out whenever the recording flag holds (a missing
writer is the crash case), and release the writer when motion has cleared
while recording. After a release the variable out keeps its stale value,
as in the source. -/
def detect_motion_and_record_tick {F G M B : Type} (ops : VisionOps F G M B)
    (st : DmrState G) (read : Option F) (ts : String) : DmrTickResult G :=
  match read with
  | none => .halted
  | some frame =>
    let gray := ops.gaussian_blur 21 21 (ops.to_gray frame)
    match st.prev_frame with
    | none => .ok { st with prev_frame := some gray } false
    | some prev =>
      let frame_delta := ops.absdiff prev gray
      let thresh := ops.dilate 2 (ops.threshold_bin 25 255 frame_delta)
      let motion := (ops.contour_areas thresh).any (fun a => decide (5000 < a))
      let st1 : DmrState G :=
        { st with prev_frame := some gray, motion_flag := motion }
      let st2 : DmrState G :=
        if motion && !st1.recording then
          { st1 with recording := true, out := some ("motion_" ++ ts ++ ".avi") }
        else st1
      if st2.recording then
        match st2.out with
        | none => .crash_missing_writer
        | some _ =>
          if !motion && st2.recording then .ok { st2 with recording := false } true
          else .ok st2 false
      else .ok st2 false

/-- Initial detect_motion_and_record state: no previous frame, out is
None, neither flag set. -/
def dmr_init (G : Type) : DmrState G :=
  { prev_frame := none, out := none, recording := false, motion_flag := false }

/-- Iterated detect_motion_and_record loop over a frame stream with
successful reads; a crash or halt is absorbing. -/
def detect_motion_and_record_run {F G M B : Type} (ops : VisionOps F G M B)
    (frames : Nat → F) (ts : Nat → String) : Nat → DmrTickResult G
  | 0 =>
    detect_motion_and_record_tick ops (dmr_init G) (some (frames 0)) (ts 0)
  | n + 1 =>
    match detect_motion_and_record_run ops frames ts n with
    | .ok st _ =>
      detect_motion_and_record_tick ops st (some (frames (n + 1))) (ts (n + 1))
    | r => r

/-- Motion flag after tick n of the detect_motion_and_record loop. -/
def dmr_motion_at {F G M B : Type} (ops : VisionOps F G M B)
    (frames : Nat → F) (ts : Nat → String) (n : Nat) : Bool :=
  match detect_motion_and_record_run ops frames ts n with
  | .ok st _ => st.motion_flag
  | _ => false

/-- Whether tick n of the detect_motion_and_record loop released the
writer, closing a session. -/
def dmr_released_at {F G M B : Type} (ops : VisionOps F G M B)
    (frames : Nat → F) (ts : Nat → String) (n : Nat) : Bool :=
  match detect_motion_and_record_run ops frames ts n with
  | .ok _ released => released
  | _ => false

/-- Concrete instantiation of the vision primitives over natural numbers,
used to evaluate the embedding at explicit inputs: blurring adds one so
that blurred and unblurred images are distinguishable, the difference is
the distance, thresholding and contour extraction are the evident
one-pixel versions, and encoding always succeeds. -/
def natOps : VisionOps Nat Nat Nat Nat where
  to_gray := fun f => f
  gaussian_blur := fun _ _ g => g + 1
  absdiff := fun a b => max a b - min a b
  threshold_bin := fun cutoff maxval d => if cutoff < d then maxval else 0
  dilate := fun _ m => m
  contour_areas := fun m => [m]
  imencode := fun f => some f
  create_dummy_frame := 7

/-- Sample camera state before the reference is seeded. -/
def seed_state : CamState Nat := init_state Nat (some 0)

/-- Sample camera state whose reference is already seeded. -/
def ref_state : CamState Nat :=
  { init_state Nat (some 0) with last_frame := some 0 }

/-- Sample camera state with an open recording session. -/
def rec_state : CamState Nat :=
  { init_state Nat (some 0) with is_recording := true, open_writers := 1 }

/-- Sample camera state with no device available. -/
def no_cap_state : CamState Nat := init_state Nat none

/-- C3: the first frame processed after initialization, or after the
reference has been cleared, never reports motion: the detector only stores
the frame as the new reference and returns false. -/
theorem first_frame_seeds_reference_only :
    ∀ {F G M B : Type} (ops : VisionOps F G M B) (st : CamState G) (frame : F),
      st.last_frame = none →
      (detect_motion ops st frame).2 = false ∧
      (detect_motion ops st frame).1 =
        { st with last_frame := some (ops.to_gray frame) } := by
  intro F G M B ops st frame h
  simp [detect_motion, h]

/-- Witness for C3 at a concrete input. -/
theorem first_frame_seeds_reference_only_check :
    (detect_motion natOps seed_state 5).2 = false ∧
    (detect_motion natOps seed_state 5).1 =
      { seed_state with last_frame := some (natOps.to_gray 5) } :=
  first_frame_seeds_reference_only natOps seed_state 5 rfl

/-- C4 counterexample: after the seeding evaluation the stored reference is
the unblurred grayscale of the current frame, not its blurred comparison
version, so the invariant as stated fails at the very first tick. -/
theorem seeded_reference_is_unblurred :
    (detect_motion natOps seed_state 5).1.last_frame ≠
      some (natOps.gaussian_blur 21 21 (natOps.to_gray 5)) := by
  decide

/-- C4 amended: after a seeding evaluation the stored reference is the
grayscale (unblurred) current frame; after every later evaluation it is the
grayscale, blurred comparison version of the frame just evaluated, which is
the immediately preceding frame from the next tick. -/
theorem reference_update_policy :
    ∀ {F G M B : Type} (ops : VisionOps F G M B) (st : CamState G) (frame : F),
      (st.last_frame = none →
        (detect_motion ops st frame).1.last_frame = some (ops.to_gray frame)) ∧
      (∀ ref, st.last_frame = some ref →
        (detect_motion ops st frame).1.last_frame =
          some (ops.gaussian_blur 21 21 (ops.to_gray frame))) := by
  intro F G M B ops st frame
  constructor
  · intro h; simp [detect_motion, h]
  · intro ref h; simp [detect_motion, h]

/-- Witness for the amended C4 at concrete inputs, one per branch. -/
theorem reference_update_policy_check :
    (detect_motion natOps seed_state 5).1.last_frame =
      some (natOps.to_gray 5) ∧
    (detect_motion natOps ref_state 5).1.last_frame =
      some (natOps.gaussian_blur 21 21 (natOps.to_gray 5)) :=
  ⟨(reference_update_policy natOps seed_state 5).1 rfl,
   (reference_update_policy natOps ref_state 5).2 0 rfl⟩

/-- C5: once the reference is seeded, the detector reports motion exactly
when some connected region of the thresholded, dilated difference mask has
area exceeding the configured area threshold. -/
theorem motion_iff_large_region :
    ∀ {F G M B : Type} (ops : VisionOps F G M B) (st : CamState G)
      (frame : F) (ref : G),
      st.last_frame = some ref →
      ((detect_motion ops st frame).2 = true ↔
        ∃ a ∈ ops.contour_areas (ops.dilate 2 (ops.threshold_bin 25 255
            (ops.absdiff ref (ops.gaussian_blur 21 21 (ops.to_gray frame))))),
          st.motion_threshold < a) := by
  intro F G M B ops st frame ref h
  simp [detect_motion, h, List.any_eq_true]

/-- Witness for C5 at a concrete input. -/
theorem motion_iff_large_region_check :
    (detect_motion natOps ref_state 5).2 = true ↔
      ∃ a ∈ natOps.contour_areas (natOps.dilate 2 (natOps.threshold_bin 25 255
          (natOps.absdiff 0 (natOps.gaussian_blur 21 21 (natOps.to_gray 5))))),
        ref_state.motion_threshold < a :=
  motion_iff_large_region natOps ref_state 5 0 rfl

/-- C7: a recording trigger with no device appends a trigger-specific
no-camera event to the log and creates no file and opens no writer; through
the manual endpoint the log gains manual_record then manual_no_camera. -/
theorem no_camera_trigger_logs_and_creates_no_file :
    ∀ {G : Type} (trigger_type ts : String) (st : CamState G),
      st.cap = none → st.is_recording = false →
      record_clip trigger_type ts st =
        { st with events := st.events ++ [trigger_type ++ "_no_camera"] } ∧
      (record_clip trigger_type ts st).files = st.files ∧
      (record_clip trigger_type ts st).open_writers = st.open_writers ∧
      (manual_record ts st).1.events =
        st.events ++ ["manual_record", "manual_no_camera"] ∧
      (manual_record ts st).1.files = st.files ∧
      (manual_record ts st).1.open_writers = st.open_writers := by
  intro G trigger_type ts st hc hr
  simp [record_clip, manual_record, hc, hr]

/-- Witness for C7 at a concrete input. -/
theorem no_camera_trigger_logs_and_creates_no_file_check :
    record_clip "manual" "t" no_cap_state =
      { no_cap_state with
          events := no_cap_state.events ++ ["manual_no_camera"] } ∧
    (record_clip "manual" "t" no_cap_state).files = no_cap_state.files ∧
    (record_clip "manual" "t" no_cap_state).open_writers =
      no_cap_state.open_writers ∧
    (manual_record "t" no_cap_state).1.events =
      no_cap_state.events ++ ["manual_record", "manual_no_camera"] ∧
    (manual_record "t" no_cap_state).1.files = no_cap_state.files ∧
    (manual_record "t" no_cap_state).1.open_writers =
      no_cap_state.open_writers :=
  no_camera_trigger_logs_and_creates_no_file "manual" "t" no_cap_state rfl rfl

/-- C8: the record endpoint rejects an unknown camera key with an
invalid-key error and mutates nothing; a known key has its recording flag
forced to true, leaving all other flags untouched. -/
theorem manual_record_endpoint_validation :
    (∀ (cam : String) (st : AppCtl), cam ≠ "cam1" → cam ≠ "cam2" →
      manual_record_endpoint cam st =
        (st, Except.error "Invalid camera key")) ∧
    (∀ st : AppCtl,
      manual_record_endpoint "cam1" st =
        ({ st with rec_cam1 := true },
         Except.ok ("Manual recording started for " ++ "cam1")) ∧
      manual_record_endpoint "cam2" st =
        ({ st with rec_cam2 := true },
         Except.ok ("Manual recording started for " ++ "cam2"))) := by
  constructor
  · intro cam st h1 h2
    simp [manual_record_endpoint, h1, h2]
  · intro st
    constructor <;> simp [manual_record_endpoint]

/-- Witness for C8 at concrete inputs, one per branch. -/
theorem manual_record_endpoint_validation_check :
    manual_record_endpoint "cam9" ⟨false, false, false, false⟩ =
      (⟨false, false, false, false⟩, Except.error "Invalid camera key") ∧
    manual_record_endpoint "cam1" ⟨false, false, false, false⟩ =
      ({ rec_cam1 := true, rec_cam2 := false, mot_cam1 := false,
         mot_cam2 := false },
       Except.ok ("Manual recording started for " ++ "cam1")) :=
  ⟨manual_record_endpoint_validation.1 "cam9" ⟨false, false, false, false⟩
     (by decide) (by decide),
   (manual_record_endpoint_validation.2 ⟨false, false, false, false⟩).1⟩

/-- C9: appending to a readable event log preserves every stored event at
its position and places the new event at the end, so the stored order is
insertion order. -/
theorem log_event_appends_preserving :
    ∀ (stored : Option (List EventRec)) (evs : List EventRec) (e : EventRec),
      stored = some evs →
      log_event stored e = evs ++ [e] ∧
      (∀ i, i < evs.length → (log_event stored e)[i]? = evs[i]?) ∧
      (log_event stored e).getLast? = some e := by
  intro stored evs e h
  subst h
  refine ⟨rfl, ?_, ?_⟩
  · intro i hi
    simp [log_event, List.getElem?_append, hi]
  · simp [log_event]

/-- Witness for C9 at a concrete input. -/
theorem log_event_appends_preserving_check :
    log_event (some [⟨"t1", "motion_detected"⟩]) ⟨"t2", "recording_stopped"⟩ =
      [⟨"t1", "motion_detected"⟩, ⟨"t2", "recording_stopped"⟩] ∧
    (log_event (some [⟨"t1", "motion_detected"⟩])
        ⟨"t2", "recording_stopped"⟩)[0]? =
      [(⟨"t1", "motion_detected"⟩ : EventRec)][0]? ∧
    (log_event (some [⟨"t1", "motion_detected"⟩])
        ⟨"t2", "recording_stopped"⟩).getLast? =
      some ⟨"t2", "recording_stopped"⟩ :=
  ⟨(log_event_appends_preserving _ _ _ rfl).1,
   (log_event_appends_preserving _ _ _ rfl).2.1 0 (by decide),
   (log_event_appends_preserving _ _ _ rfl).2.2⟩

/-- Helper for C1: one controller step preserves the structural tie between
the recording flag and the number of open writers. -/
theorem ctrl_step_writer_inv {G : Type} (st : CamState G) (e : CtrlEvent)
    (h : st.open_writers = if st.is_recording then 1 else 0) :
    (ctrl_step st e).open_writers =
      if (ctrl_step st e).is_recording then 1 else 0 := by
  cases e with
  | manual ts =>
    by_cases hr : st.is_recording
    · simp [ctrl_step, manual_record, hr, h]
    · cases hc : st.cap <;>
        simp [ctrl_step, manual_record, record_clip, hr, hc, h]
  | motion_edge ts =>
    by_cases hr : st.is_recording
    · simp [ctrl_step, record_clip, hr, h]
    · cases hc : st.cap <;> simp [ctrl_step, record_clip, hr, hc, h]
  | clip_done =>
    by_cases hr : st.is_recording <;> simp [ctrl_step, clip_done, hr, h]

/-- Helper for C1: the writer invariant is preserved along any event
sequence. -/
theorem ctrl_foldl_writer_inv {G : Type} :
    ∀ (evs : List CtrlEvent) (st : CamState G),
      st.open_writers = (if st.is_recording then 1 else 0) →
      (evs.foldl ctrl_step st).open_writers =
        if (evs.foldl ctrl_step st).is_recording then 1 else 0 := by
  intro evs
  induction evs with
  | nil => intro st h; simpa using h
  | cons e evs ih =>
    intro st h
    simp only [List.foldl_cons]
    exact ih _ (ctrl_step_writer_inv st e h)

/-- C1: a trigger received while a session is open is a no-op on the
session state (re-entrant record_clip returns its state unchanged, and the
manual endpoint reports Already recording without touching anything), and
along every event sequence from the initial state at most one writer is
open at any time. -/
theorem at_most_one_open_recording_session :
    (∀ (G : Type) (trigger_type ts : String) (st : CamState G),
       st.is_recording = true → record_clip trigger_type ts st = st) ∧
    (∀ (G : Type) (ts : String) (st : CamState G),
       st.is_recording = true →
       manual_record ts st = (st, "Already recording")) ∧
    (∀ (G : Type) (cap : Option Nat) (evs : List CtrlEvent),
       (run_controller G cap evs).open_writers ≤ 1) := by
  refine ⟨?_, ?_, ?_⟩
  · intro G trigger_type ts st h; simp [record_clip, h]
  · intro G ts st h; simp [manual_record, h]
  · intro G cap evs
    have h := ctrl_foldl_writer_inv (G := G) evs (init_state G cap)
      (by simp [init_state])
    unfold run_controller
    rw [h]
    split <;> simp

/-- Witness for C1 at concrete inputs, one per conjunct. -/
theorem at_most_one_open_recording_session_check :
    record_clip "motion" "t" rec_state = rec_state ∧
    manual_record "t" rec_state = (rec_state, "Already recording") ∧
    (run_controller Nat (some 0)
        [.manual "a", .manual "b", .motion_edge "c"]).open_writers ≤ 1 :=
  ⟨at_most_one_open_recording_session.1 Nat "motion" "t" rec_state rfl,
   at_most_one_open_recording_session.2.1 Nat "t" rec_state rfl,
   at_most_one_open_recording_session.2.2 Nat (some 0) _⟩

/-- Helper for C6: with no device, one generate_frames iteration yields the
encoded dummy frame and leaves the state untouched, for any inputs. -/
theorem generate_frames_tick_no_cap {F G M B : Type}
    (ops : VisionOps F G M B) (st : CamState G) (opened : Bool)
    (read : Option F) (ts : String) (buf : B) (hc : st.cap = none)
    (he : ops.imencode ops.create_dummy_frame = some buf) :
    generate_frames_tick ops st opened read ts = (.part buf, st) := by
  simp [generate_frames_tick, hc, he]

/-- C6: when the device cannot be opened, the stream loop never exits and
every tick yields the same encoded placeholder frame, so downstream
consumers always see a valid frame stream. -/
theorem placeholder_stream_serves_forever :
    ∀ {F G M B : Type} (ops : VisionOps F G M B) (st0 : CamState G)
      (inputs : Nat → Bool × Option F × String) (buf : B),
      st0.cap = none → ops.imencode ops.create_dummy_frame = some buf →
      ∀ n, generate_frames_run ops st0 inputs n = (.part buf, st0) := by
  intro F G M B ops st0 inputs buf hc he n
  induction n with
  | zero =>
    simpa [generate_frames_run] using
      generate_frames_tick_no_cap ops st0 (inputs 0).1 (inputs 0).2.1
        (inputs 0).2.2 buf hc he
  | succ n ih =>
    simp only [generate_frames_run]
    rw [ih]
    exact generate_frames_tick_no_cap ops st0 (inputs (n + 1)).1
      (inputs (n + 1)).2.1 (inputs (n + 1)).2.2 buf hc he

/-- Witness for C6 at a concrete input. -/
theorem placeholder_stream_serves_forever_check :
    generate_frames_run natOps no_cap_state (fun _ => (true, some 0, "t")) 5 =
      (.part 7, no_cap_state) :=
  placeholder_stream_serves_forever natOps no_cap_state
    (fun _ => (true, some 0, "t")) 7 rfl rfl 5

/-- Helper for C2: once elapsed time reaches the duration the write loop
stops at the current tick. -/
theorem record_clip_loop_stopped (t : Nat) (h : ¬ 33 * t < 10000) :
    record_clip_loop t = t := by
  unfold record_clip_loop
  simp [h]

/-- Helper for C2: while elapsed time is below the duration the write loop
advances one tick. -/
theorem record_clip_loop_step (t : Nat) (h : 33 * t < 10000) :
    record_clip_loop t = record_clip_loop (t + 1) := by
  conv_lhs => unfold record_clip_loop
  simp [h]

/-- Helper for C2: closed form of the write loop, stopping at tick 304, the
first tick at or past the 10 second mark. -/
theorem record_clip_loop_closed :
    ∀ (k t : Nat), 10000 ≤ 33 * t + k →
      record_clip_loop t = if 33 * t < 10000 then 304 else t := by
  intro k
  induction k with
  | zero =>
    intro t h
    have hn : ¬ 33 * t < 10000 := by omega
    simp [record_clip_loop_stopped t hn, hn]
  | succ k ih =>
    intro t h
    by_cases hc : 33 * t < 10000
    · rw [record_clip_loop_step t hc, ih (t + 1) (by omega)]
      by_cases hc2 : 33 * (t + 1) < 10000
      · simp [hc, hc2]
      · have ht : t + 1 = 304 := by omega
        simp [hc, hc2, ht]
    · simp [record_clip_loop_stopped t hc, hc]

/-- C2 counterexample: a motion-triggered clip of SecurityCamera keeps
recording long after the motion signal has cleared. With motion present
exactly on ticks 0 to 90, the signal first reads false after being true at
tick 91, yet the clip stops only at tick 304, the fixed 10 second mark, so
the stated trigger-kind-dependent stop condition fails on this code path. -/
theorem motion_clip_ignores_motion_clear :
    record_clip_stop_tick "motion" (fun t => decide (t < 91)) = 304 ∧
    (fun t => decide (t < 91)) 90 = true ∧
    (fun t => decide (t < 91)) 91 = false ∧
    record_clip_stop_tick "motion" (fun t => decide (t < 91)) ≠ 91 := by
  have h : record_clip_stop_tick "motion" (fun t => decide (t < 91)) = 304 := by
    unfold record_clip_stop_tick
    simpa using record_clip_loop_closed 10000 0 (by omega)
  exact ⟨h, rfl, rfl, by rw [h]; omega⟩

/-- Helper for C2: one post-seeding iteration of detect_motion_and_record
from a state whose writer exists whenever the recording flag holds steps
normally; the writer is released exactly when the flag held on entry and
the freshly computed motion signal is false, and the flag always tracks the
freshly computed motion signal afterwards. -/
theorem dmr_tick_step {F G M B : Type} (ops : VisionOps F G M B)
    (st : DmrState G) (frame : F) (s : String) (p : G)
    (hp : st.prev_frame = some p)
    (hro : st.recording = true → st.out.isSome = true) :
    ∃ st2 : DmrState G,
      detect_motion_and_record_tick ops st (some frame) s =
        .ok st2 (st.recording && !st2.motion_flag) ∧
      st2.prev_frame = some (ops.gaussian_blur 21 21 (ops.to_gray frame)) ∧
      st2.recording = st2.motion_flag ∧
      (st2.recording = true → st2.out.isSome = true) := by
  by_cases hm :
      ((ops.contour_areas (ops.dilate 2 (ops.threshold_bin 25 255
          (ops.absdiff p (ops.gaussian_blur 21 21 (ops.to_gray frame)))))).any
        (fun a => decide (5000 < a))) = true
  · by_cases hr : st.recording = true
    · obtain ⟨o, ho⟩ : ∃ o, st.out = some o := by
        have hs := hro hr
        cases hx : st.out with
        | none => rw [hx] at hs; simp at hs
        | some o => exact ⟨o, rfl⟩
      refine ⟨{ st with
                  prev_frame := some (ops.gaussian_blur 21 21 (ops.to_gray frame)),
                  motion_flag := true },
              ?_, rfl, by simp [hr], by intro _; simp [ho]⟩
      simp [detect_motion_and_record_tick, hp, hm, hr, ho]
    · simp only [Bool.not_eq_true] at hr
      refine ⟨{ st with
                  prev_frame := some (ops.gaussian_blur 21 21 (ops.to_gray frame)),
                  motion_flag := true, recording := true,
                  out := some ("motion_" ++ s ++ ".avi") },
              ?_, rfl, rfl, by simp⟩
      simp [detect_motion_and_record_tick, hp, hm, hr]
  · simp only [Bool.not_eq_true] at hm
    by_cases hr : st.recording = true
    · obtain ⟨o, ho⟩ : ∃ o, st.out = some o := by
        have hs := hro hr
        cases hx : st.out with
        | none => rw [hx] at hs; simp at hs
        | some o => exact ⟨o, rfl⟩
      refine ⟨{ st with
                  prev_frame := some (ops.gaussian_blur 21 21 (ops.to_gray frame)),
                  motion_flag := false, recording := false },
              ?_, rfl, rfl, by simp⟩
      simp [detect_motion_and_record_tick, hp, hm, hr, ho]
    · simp only [Bool.not_eq_true] at hr
      refine ⟨{ st with
                  prev_frame := some (ops.gaussian_blur 21 21 (ops.to_gray frame)),
                  motion_flag := false },
              ?_, rfl, by simp [hr], by intro hx; exact hro hx⟩
      simp [detect_motion_and_record_tick, hp, hm, hr]

/-- Helper for C2: along any run of the detect_motion_and_record loop with
successful reads, every tick completes normally, a previous frame exists,
the recording flag always equals the motion flag (so sessions span exactly
the ticks whose computed motion is true), and the writer exists whenever
the flag holds. -/
theorem dmr_run_inv {F G M B : Type} (ops : VisionOps F G M B)
    (frames : Nat → F) (ts : Nat → String) :
    ∀ n, ∃ st rel,
      detect_motion_and_record_run ops frames ts n = .ok st rel ∧
      (∃ p, st.prev_frame = some p) ∧
      st.recording = st.motion_flag ∧
      (st.recording = true → st.out.isSome = true) := by
  intro n
  induction n with
  | zero =>
    refine ⟨{ dmr_init G with
                prev_frame :=
                  some (ops.gaussian_blur 21 21 (ops.to_gray (frames 0))) },
            false, ?_, ⟨_, rfl⟩, rfl, by simp [dmr_init]⟩
    simp [detect_motion_and_record_run, detect_motion_and_record_tick, dmr_init]
  | succ n ih =>
    obtain ⟨st, rel, hrun, ⟨p, hp⟩, hrm, hro⟩ := ih
    obtain ⟨st2, htick, hp2, hrm2, hro2⟩ :=
      dmr_tick_step ops st (frames (n + 1)) (ts (n + 1)) p hp hro
    refine ⟨st2, st.recording && !st2.motion_flag, ?_, ⟨_, hp2⟩, hrm2, hro2⟩
    simp [detect_motion_and_record_run, hrun, htick]

/-- C2 amended: the stop condition depends on the code path, not on the
trigger kind. In SecurityCamera.record_clip every session, manual or
motion-triggered, stops at tick 304, the first tick at or past the fixed
10 second duration, regardless of the motion signal; in the
detect_motion_and_record loop of the backend app, a session is closed (the
writer released) exactly on the ticks where the computed motion signal
transitions from true to false. -/
theorem stop_policy_per_code_path :
    (∀ (trigger_type : String) (motion : Nat → Bool),
       record_clip_stop_tick trigger_type motion = 304) ∧
    (∀ (F G M B : Type) (ops : VisionOps F G M B) (frames : Nat → F)
       (ts : Nat → String) (n : Nat),
       dmr_released_at ops frames ts (n + 1) =
         (dmr_motion_at ops frames ts n &&
          !dmr_motion_at ops frames ts (n + 1))) := by
  constructor
  · intro trigger_type motion
    unfold record_clip_stop_tick
    simpa using record_clip_loop_closed 10000 0 (by omega)
  · intro F G M B ops frames ts n
    obtain ⟨st, rel, hrun, ⟨p, hp⟩, hrm, hro⟩ := dmr_run_inv ops frames ts n
    obtain ⟨st2, htick, hp2, hrm2, hro2⟩ :=
      dmr_tick_step ops st (frames (n + 1)) (ts (n + 1)) p hp hro
    have hrun2 : detect_motion_and_record_run ops frames ts (n + 1) =
        .ok st2 (st.recording && !st2.motion_flag) := by
      simp [detect_motion_and_record_run, hrun, htick]
    simp [dmr_released_at, dmr_motion_at, hrun, hrun2, hrm]

/-- C10: evaluation of the backend-app capture loop at the failing input.
After the seeding tick, an external manual-record request sets the shared
recording flag while the writer variable out is still None; the next loop
iteration reaches the frame-write step with the flag set and no writer and
crashes (an AttributeError on out.write in the source), so the claimed
safety property fails and the manual-record endpoint of the backend app
cannot start a working session. -/
theorem manual_flag_write_missing_writer_crash :
    detect_motion_and_record_tick natOps
      { prev_frame := some 0, out := none, recording := true,
        motion_flag := false }
      (some 1) "x" = .crash_missing_writer := by
  rfl
